import Mathlib

/-!
Shallow embedding of the safe-wrapper layer of the cdparanoia bindings
(src/error.rs, src/read.rs, src/lib.rs) and proofs about the claims of
the specification.

Modelling conventions:
* Native machine integers are modelled as `Int`/`Nat`; the `as u16` cast
  in `ParanoiaError::check_result` is modelled as `% 65536` on the
  magnitude, and the wrapping `u32` increment of the sector cursor as
  `% 4294967296`.
* Calls into the native library are modelled by an explicit oracle
  (`resp : Nat → Option Frame` indexed by the number of native read
  calls already made, `DriveOracle` for drive discovery) together with a
  trace of the native calls issued (`NativeCall` / `NativeState`), so
  that theorems can speak about which native calls a wrapper function
  performs and in which order.
* The build with the default `libcdio-paranoia` feature and without the
  optional `tracing` feature is modelled; `Drive::check_messages` is a
  no-op in that configuration and issues no native calls.
-/

namespace Cdparanoia

/-- Error code as returned from libcdio-cdparanoia/cdparanoia-3
(src/error.rs, enum `ParanoiaError`). `Other` is the `#[num_enum(catch_all)]`
variant carrying the raw (16-bit) code. -/
inductive ParanoiaError where
  | SetToReadAudioMode
  | ReadTocLeadOut
  | IllegalNumberOfTracks
  | ReadTocHeader
  | ReadTocEntry
  | ReadAnyData
  | Unknown
  | IdentifyModel
  | IllegalToc
  | UnaddressableSector
  | InterfaceNotSupported
  | InvalidDrive
  | PermissionDeniedIoctl
  | PermissionDeniedData
  | KernelMemoryError
  | DeviceNotOpen
  | InvalidTrackNumber
  | TrackNotAudioData
  | NoAudioTracks
  | NoMedium
  | NotSupported
  | Other (code : Nat)
deriving DecidableEq, Repr

/-- The discriminant table of `ParanoiaError` as declared in src/error.rs:
each documented native code paired with its variant. -/
def documented_codes : List (Nat × ParanoiaError) :=
  [(1, .SetToReadAudioMode), (2, .ReadTocLeadOut), (3, .IllegalNumberOfTracks),
   (4, .ReadTocHeader), (5, .ReadTocEntry), (6, .ReadAnyData), (7, .Unknown),
   (8, .IdentifyModel), (9, .IllegalToc), (10, .UnaddressableSector),
   (100, .InterfaceNotSupported), (101, .InvalidDrive),
   (102, .PermissionDeniedIoctl), (103, .PermissionDeniedData),
   (300, .KernelMemoryError), (400, .DeviceNotOpen), (401, .InvalidTrackNumber),
   (402, .TrackNotAudioData), (403, .NoAudioTracks), (404, .NoMedium),
   (405, .NotSupported)]

/-- The documented magnitudes (the keys of `documented_codes`). -/
def documented_keys : List Nat := documented_codes.map Prod.fst

/-- `ParanoiaError::from_primitive` as generated by `#[derive(FromPrimitive)]`
with `#[num_enum(catch_all)] Other(u16)`: a documented `u16` discriminant
yields its variant, anything else yields `Other` carrying the value. -/
def ParanoiaError.from_primitive (n : Nat) : ParanoiaError :=
  if n = 1 then .SetToReadAudioMode
  else if n = 2 then .ReadTocLeadOut
  else if n = 3 then .IllegalNumberOfTracks
  else if n = 4 then .ReadTocHeader
  else if n = 5 then .ReadTocEntry
  else if n = 6 then .ReadAnyData
  else if n = 7 then .Unknown
  else if n = 8 then .IdentifyModel
  else if n = 9 then .IllegalToc
  else if n = 10 then .UnaddressableSector
  else if n = 100 then .InterfaceNotSupported
  else if n = 101 then .InvalidDrive
  else if n = 102 then .PermissionDeniedIoctl
  else if n = 103 then .PermissionDeniedData
  else if n = 300 then .KernelMemoryError
  else if n = 400 then .DeviceNotOpen
  else if n = 401 then .InvalidTrackNumber
  else if n = 402 then .TrackNotAudioData
  else if n = 403 then .NoAudioTracks
  else if n = 404 then .NoMedium
  else if n = 405 then .NotSupported
  else .Other n

/-- `ParanoiaError::check_result` (src/error.rs lines 79-88): a negative
signed code is negated, cast to `u16` (truncation modulo 65536) and mapped
through `from_primitive`; a non-negative code is returned unchanged. -/
def ParanoiaError.check_result (code : Int) : Except ParanoiaError Int :=
  if code < 0 then
    Except.error (ParanoiaError.from_primitive ((-code).toNat % 65536))
  else
    Except.ok code

/-- On an input outside the documented key set, `from_primitive` falls
through every documented arm to the catch-all. -/
lemma from_primitive_undocumented (n : Nat) (h : n ∉ documented_keys) :
    ParanoiaError.from_primitive n = ParanoiaError.Other n := by
  have hne : ∀ k ∈ documented_keys, n ≠ k := fun k hk e => h (e ▸ hk)
  rw [ParanoiaError.from_primitive]
  repeat rw [if_neg (hne _ (by decide))]

/-- On a documented key, `from_primitive` yields the corresponding variant. -/
lemma from_primitive_documented (m : Nat) (e : ParanoiaError)
    (h : (m, e) ∈ documented_codes) :
    ParanoiaError.from_primitive m = e := by
  have hall : ∀ p ∈ documented_codes,
      ParanoiaError.from_primitive p.1 = p.2 := by decide
  exact hall (m, e) h

/-- C1: every non-negative signed return code is passed through
`check_result` unchanged as a success, and every negative return code
whose magnitude equals a documented code (1-10, 100-103, 300, 400-405)
is mapped to the corresponding descriptive `ParanoiaError` variant. -/
theorem claim_C1 :
    (∀ code : Int, 0 ≤ code →
      ParanoiaError.check_result code = Except.ok code) ∧
    (∀ code : Int, code < 0 → ∀ e : ParanoiaError,
      ((-code).toNat, e) ∈ documented_codes →
      ParanoiaError.check_result code = Except.error e) := by
  constructor
  · intro code hcode
    simp [ParanoiaError.check_result, not_lt.mpr hcode]
  · intro code hcode e hmem
    have hkey : (-code).toNat ∈ documented_keys :=
      List.mem_map_of_mem Prod.fst hmem
    have hsmall : ∀ k ∈ documented_keys, k < 65536 := by decide
    have hlt : (-code).toNat < 65536 := hsmall _ hkey
    simp only [ParanoiaError.check_result, if_pos hcode,
      Nat.mod_eq_of_lt hlt]
    exact congrArg Except.error (from_primitive_documented _ e hmem)

/-- Closed instance of C1: code 5 passes through, code -300 maps to the
kernel-memory-error variant. -/
theorem claim_C1_witness :
    ParanoiaError.check_result 5 = Except.ok 5 ∧
    ParanoiaError.check_result (-300) =
      Except.error ParanoiaError.KernelMemoryError :=
  ⟨claim_C1.1 5 (by decide),
   claim_C1.2 (-300) (by decide) ParanoiaError.KernelMemoryError (by decide)⟩

/-- Counterexample to C4: the i32 code -65537 is negative and its magnitude
65537 matches no documented code, yet `check_result` does not yield
`Other 65537` — the `as u16` cast truncates 65537 to 1, which collides with
the documented code for `SetToReadAudioMode`. Likewise -65536 yields
`Other 0`, not `Other 65536`. -/
theorem claim_C4_counterexample :
    ParanoiaError.check_result (-65537) =
      Except.error ParanoiaError.SetToReadAudioMode ∧
    ParanoiaError.check_result (-65536) =
      Except.error (ParanoiaError.Other 0) := by
  constructor <;> rfl

/-- C4 (amended): for every negative signed code, `check_result` is defined
and maps the magnitude truncated to 16 bits (magnitude mod 65536); when the
truncated magnitude matches no documented code the result is the catch-all
`Other` carrying that truncated magnitude (not the full magnitude, which is
lost for i32 magnitudes exceeding 65535). The mapping is total: every
signed input yields either a success or an error value. -/
theorem claim_C4 :
    (∀ code : Int, code < 0 → ((-code).toNat % 65536) ∉ documented_keys →
      ParanoiaError.check_result code =
        Except.error (ParanoiaError.Other ((-code).toNat % 65536))) ∧
    (∀ code : Int, ParanoiaError.check_result code = Except.ok code ∨
      ∃ e, ParanoiaError.check_result code = Except.error e) := by
  constructor
  · intro code hcode hkey
    simp only [ParanoiaError.check_result, if_pos hcode,
      from_primitive_undocumented _ hkey]
  · intro code
    by_cases h : code < 0
    · exact Or.inr ⟨ParanoiaError.from_primitive ((-code).toNat % 65536),
        by simp [ParanoiaError.check_result, h]⟩
    · exact Or.inl (by simp [ParanoiaError.check_result, h])

/-- Closed instance of the amended C4: -70000 truncates to 4464, an
undocumented magnitude, yielding `Other 4464`; and the mapping is defined
at 5. -/
theorem claim_C4_witness :
    ParanoiaError.check_result (-70000) =
      Except.error (ParanoiaError.Other 4464) ∧
    (ParanoiaError.check_result 5 = Except.ok 5 ∨
      ∃ e, ParanoiaError.check_result 5 = Except.error e) :=
  ⟨claim_C4.1 (-70000) (by decide) (by decide), claim_C4.2 5⟩

/-- The error type returned by all library functions (src/error.rs, enum
`Error`). `InvalidString` carries a `NulError` in the source; the payload
is irrelevant to the claims and omitted. -/
inductive Error where
  | CantOpenDrive
  | Read
  | InvalidString
  | Paranoia (e : ParanoiaError)
deriving DecidableEq, Repr

/-- One audio frame: the `&[i16]` slice of `CD_FRAMEWORDS` samples that a
successful native read yields. Its contents are opaque to the wrapper. -/
def Frame := List Int

instance : DecidableEq Frame :=
  inferInstanceAs (DecidableEq (List Int))

/-- A native call issued by the wrapper, as recorded in the call trace.
`paranoia_read_limited` receives only the paranoia handle, a null callback
and the retry budget — no sector-position argument. -/
inductive NativeCall where
  | find_a_cdrom
  | identify (path : List Nat)
  | cdda_open
  | cdda_close
  | read_limited (max_retries : Int)
deriving DecidableEq, Repr

/-- The state of the modelled native layer: the trace of calls issued so
far, in order. The response oracle is indexed by the position of a read
call in this trace. -/
structure NativeState where
  calls : List NativeCall
deriving DecidableEq, Repr

/-- The modulus of `u32` arithmetic (the sector cursor's type). -/
def U32_MOD : Nat := 4294967296

/-- `DiscReader` (src/read.rs lines 77-86): the borrowed paranoia handle is
modelled by the native oracle/trace, the remaining fields are kept as in
the source. -/
structure DiscReader where
  last_lsn : Nat
  current_lsn : Nat
  max_retries : Int
deriving DecidableEq, Repr

/-- `DiscReader::new` (src/read.rs lines 92-104): starts the cursor at
`first_lsn` and records `last_lsn` and the retry budget. -/
def DiscReader.new (first_lsn last_lsn : Nat) (max_retries : Int) :
    DiscReader :=
  { last_lsn := last_lsn, current_lsn := first_lsn,
    max_retries := max_retries }

/-- `DiscReader::next_sector` (src/read.rs lines 109-126). If the cursor
equals the configured last sector the reader is exhausted and no native
call is made. Otherwise `paranoia_read_limited` is called with the retry
budget only; a null response is surfaced as `Error::Read` before the
cursor is incremented (so a failed step leaves `current_lsn` unchanged),
and a non-null response bumps the cursor by one `u32` step. -/
def DiscReader.next_sector (resp : Nat → Option Frame) (r : DiscReader)
    (s : NativeState) :
    Option (Except Error Frame) × DiscReader × NativeState :=
  if r.current_lsn = r.last_lsn then
    (none, r, s)
  else
    let s' : NativeState :=
      ⟨s.calls ++ [NativeCall.read_limited r.max_retries]⟩
    match resp s.calls.length with
    | none => (some (Except.error Error.Read), r, s')
    | some data =>
        (some (Except.ok data),
         { r with current_lsn := (r.current_lsn + 1) % U32_MOD }, s')

/-- Repeatedly call `next_sector`, collecting the `n` step results and the
final reader and native states. -/
def runN (resp : Nat → Option Frame) :
    Nat → DiscReader → NativeState →
    List (Option (Except Error Frame)) × DiscReader × NativeState
  | 0, r, s => ([], r, s)
  | n + 1, r, s =>
      let step := DiscReader.next_sector resp r s
      let rest := runN resp n step.2.1 step.2.2
      (step.1 :: rest.1, rest.2)

lemma runN_length (resp : Nat → Option Frame) :
    ∀ (n : Nat) (r : DiscReader) (s : NativeState),
      (runN resp n r s).1.length = n := by
  intro n
  induction n with
  | zero => intro r s; rfl
  | succ n ih => intro r s; simp [runN, ih]

/-- An exhausted reader (cursor equal to the last sector) returns `none`
and changes nothing. -/
lemma next_sector_exhausted (resp : Nat → Option Frame) (r : DiscReader)
    (s : NativeState) (h : r.current_lsn = r.last_lsn) :
    DiscReader.next_sector resp r s = (none, r, s) := by
  simp [DiscReader.next_sector, h]

/-- Core counting lemma: when every native read responds with a buffer and
the cursor reaches the last sector after exactly `n` wrapping `u32`
increments (`n < 2^32`), the next `n` steps all succeed, the final cursor
sits on the last sector, and exactly `n` read calls were issued. -/
lemma runN_all_ok (resp : Nat → Option Frame)
    (hresp : ∀ k, (resp k).isSome = true) :
    ∀ (n c l : Nat) (m : Int) (s : NativeState),
      c < U32_MOD → l < U32_MOD → (c + n) % U32_MOD = l → n < U32_MOD →
      (∀ x ∈ (runN resp n ⟨l, c, m⟩ s).1, ∃ f, x = some (Except.ok f)) ∧
      (runN resp n ⟨l, c, m⟩ s).2.1 = ⟨l, l, m⟩ ∧
      (runN resp n ⟨l, c, m⟩ s).2.2.calls =
        s.calls ++ List.replicate n (NativeCall.read_limited m) := by
  intro n
  induction n with
  | zero =>
      intro c l m s hc _ hcl _
      have : c = l := by
        simpa [Nat.mod_eq_of_lt hc] using hcl
      subst this
      simp [runN]
  | succ n ih =>
      intro c l m s hc hl hcl hn
      have hne : c ≠ l := by
        intro h
        subst h
        simp only [U32_MOD] at hcl hc hn
        omega
      obtain ⟨f, hf⟩ := Option.isSome_iff_exists.mp (hresp s.calls.length)
      have hstep :
          DiscReader.next_sector resp ⟨l, c, m⟩ s =
            (some (Except.ok f), ⟨l, (c + 1) % U32_MOD, m⟩,
             ⟨s.calls ++ [NativeCall.read_limited m]⟩) := by
        simp [DiscReader.next_sector, hne, hf]
      have hc' : (c + 1) % U32_MOD < U32_MOD :=
        Nat.mod_lt _ (by simp [U32_MOD])
      have hcl' : ((c + 1) % U32_MOD + n) % U32_MOD = l := by
        simp only [U32_MOD] at hcl ⊢
        omega
      have hn' : n < U32_MOD := by
        simp only [U32_MOD] at hn ⊢
        omega
      obtain ⟨hmem, hfinal, hcalls⟩ :=
        ih ((c + 1) % U32_MOD) l m ⟨s.calls ++ [NativeCall.read_limited m]⟩
          hc' hl hcl' hn'
      refine ⟨?_, ?_, ?_⟩
      · intro x hx
        simp only [runN, hstep, List.mem_cons] at hx
        rcases hx with rfl | hx
        · exact ⟨f, rfl⟩
        · exact hmem x hx
      · simpa [runN, hstep] using hfinal
      · simp only [runN, hstep]
        rw [hcalls]
        simp [List.replicate_succ]

/-- C2: a `DiscReader` over `[A, B)` with `A ≤ B` yields exactly `B - A`
successful steps when every native read returns a non-null buffer, and
after those steps every further `next_sector` call returns `none` without
touching the reader or the native layer. -/
theorem claim_C2 (A B : Nat) (m : Int) (resp : Nat → Option Frame)
    (s : NativeState) (hAB : A ≤ B) (hB : B < U32_MOD)
    (hresp : ∀ k, (resp k).isSome = true) :
    (runN resp (B - A) (DiscReader.new A B m) s).1.length = B - A ∧
    (∀ x ∈ (runN resp (B - A) (DiscReader.new A B m) s).1,
      ∃ f, x = some (Except.ok f)) ∧
    (∀ t : NativeState,
      DiscReader.next_sector resp
          (runN resp (B - A) (DiscReader.new A B m) s).2.1 t =
        (none, (runN resp (B - A) (DiscReader.new A B m) s).2.1, t)) := by
  have hA : A < U32_MOD := lt_of_le_of_lt hAB hB
  have hcl : (A + (B - A)) % U32_MOD = B := by
    rw [Nat.add_sub_cancel' hAB, Nat.mod_eq_of_lt hB]
  have hn : B - A < U32_MOD := lt_of_le_of_lt (Nat.sub_le _ _) hB
  obtain ⟨hmem, hfinal, _⟩ := runN_all_ok resp hresp (B - A) A B m s hA hB hcl hn
  refine ⟨runN_length resp _ _ _, hmem, ?_⟩
  intro t
  rw [show (runN resp (B - A) (DiscReader.new A B m) s).2.1 =
        (⟨B, B, m⟩ : DiscReader) from hfinal]
  exact next_sector_exhausted resp _ t rfl

/-- Closed instance of C2 at `A = 2`, `B = 5`. -/
theorem claim_C2_witness :
    (runN (fun _ => some []) (5 - 2) (DiscReader.new 2 5 20) ⟨[]⟩).1.length
        = 5 - 2 ∧
    (∀ x ∈ (runN (fun _ => some []) (5 - 2) (DiscReader.new 2 5 20) ⟨[]⟩).1,
      ∃ f, x = some (Except.ok f)) ∧
    (∀ t : NativeState,
      DiscReader.next_sector (fun _ => some [])
          (runN (fun _ => some []) (5 - 2) (DiscReader.new 2 5 20) ⟨[]⟩).2.1
          t =
        (none,
         (runN (fun _ => some []) (5 - 2) (DiscReader.new 2 5 20) ⟨[]⟩).2.1,
         t)) :=
  claim_C2 2 5 20 (fun _ => some []) ⟨[]⟩ (by decide) (by decide)
    (fun _ => rfl)

/-- Counterexample to C3: a non-exhausted reader at cursor 0 whose native
read returns null yields the read error, but its cursor afterwards is
still 0 — it has not advanced by one sector as the claim states. -/
theorem claim_C3_counterexample :
    (DiscReader.next_sector (fun _ => none) (DiscReader.new 0 5 20)
        ⟨[]⟩).2.1.current_lsn = 0 ∧
    (0 : Nat) ≠ (DiscReader.new 0 5 20).current_lsn + 1 := by
  constructor <;> decide

/-- C3 (amended): a non-exhausted reader whose native read returns null
yields the read-failure error at that step, issues exactly one native read
call, and leaves the cursor unchanged (the failed step is not counted; the
early return happens before the increment). -/
theorem claim_C3 (resp : Nat → Option Frame) (r : DiscReader)
    (s : NativeState) (hne : r.current_lsn ≠ r.last_lsn)
    (hnull : resp s.calls.length = none) :
    DiscReader.next_sector resp r s =
      (some (Except.error Error.Read), r,
       ⟨s.calls ++ [NativeCall.read_limited r.max_retries]⟩) := by
  simp [DiscReader.next_sector, hne, hnull]

/-- Closed instance of the amended C3. -/
theorem claim_C3_witness :
    DiscReader.next_sector (fun _ => none) (DiscReader.new 0 5 20) ⟨[]⟩ =
      (some (Except.error Error.Read), DiscReader.new 0 5 20,
       ⟨[] ++ [NativeCall.read_limited (DiscReader.new 0 5 20).max_retries]⟩) :=
  claim_C3 (fun _ => none) (DiscReader.new 0 5 20) ⟨[]⟩ (by decide) rfl

/-- C10: exhaustion is decided solely by exact equality of the cursor with
the configured last sector. A reader built with `first_lsn > last_lsn` is
not immediately empty: its first `next_sector` call issues a native read
and does not return `none`; it only becomes exhausted after
`2^32 - first_lsn + last_lsn` successful steps, when the wrapping `u32`
cursor comes back around to equal `last_lsn`. -/
theorem claim_C10 (first_lsn last_lsn : Nat) (m : Int)
    (resp : Nat → Option Frame) (s : NativeState)
    (hgt : last_lsn < first_lsn) (hf : first_lsn < U32_MOD)
    (hresp : ∀ k, (resp k).isSome = true) :
    ((DiscReader.next_sector resp (DiscReader.new first_lsn last_lsn m) s).1
        ≠ none ∧
     (DiscReader.next_sector resp (DiscReader.new first_lsn last_lsn m)
        s).2.2.calls = s.calls ++ [NativeCall.read_limited m]) ∧
    (runN resp (U32_MOD - first_lsn + last_lsn)
        (DiscReader.new first_lsn last_lsn m) s).2.1.current_lsn =
      last_lsn ∧
    (∀ t : NativeState,
      DiscReader.next_sector resp
          (runN resp (U32_MOD - first_lsn + last_lsn)
            (DiscReader.new first_lsn last_lsn m) s).2.1 t =
        (none,
         (runN resp (U32_MOD - first_lsn + last_lsn)
           (DiscReader.new first_lsn last_lsn m) s).2.1, t)) := by
  have hne : first_lsn ≠ last_lsn := Nat.ne_of_gt hgt
  obtain ⟨f, hfr⟩ := Option.isSome_iff_exists.mp (hresp s.calls.length)
  have hstep1 :
      DiscReader.next_sector resp (DiscReader.new first_lsn last_lsn m) s =
        (some (Except.ok f),
         ⟨last_lsn, (first_lsn + 1) % U32_MOD, m⟩,
         ⟨s.calls ++ [NativeCall.read_limited m]⟩) := by
    simp [DiscReader.next_sector, DiscReader.new, hne, hfr]
  have hl : last_lsn < U32_MOD := lt_trans hgt hf
  have hcl : (first_lsn + (U32_MOD - first_lsn + last_lsn)) % U32_MOD =
      last_lsn := by
    simp only [U32_MOD] at hf hl ⊢
    omega
  have hn : U32_MOD - first_lsn + last_lsn < U32_MOD := by
    simp only [U32_MOD] at hgt hf ⊢
    omega
  obtain ⟨_, hfinal, _⟩ :=
    runN_all_ok resp hresp (U32_MOD - first_lsn + last_lsn) first_lsn
      last_lsn m s hf hl hcl hn
  have hfinal' :
      (runN resp (U32_MOD - first_lsn + last_lsn)
        (DiscReader.new first_lsn last_lsn m) s).2.1 =
        (⟨last_lsn, last_lsn, m⟩ : DiscReader) := hfinal
  refine ⟨⟨?_, ?_⟩, ?_, ?_⟩
  · rw [hstep1]; simp
  · rw [hstep1]
  · rw [hfinal']
  · intro t
    rw [hfinal']
    exact next_sector_exhausted resp _ t rfl

/-- Closed instance of C10 at `first_lsn = 3`, `last_lsn = 1`. -/
theorem claim_C10_witness :
    ((DiscReader.next_sector (fun _ => some []) (DiscReader.new 3 1 20)
        ⟨[]⟩).1 ≠ none ∧
     (DiscReader.next_sector (fun _ => some []) (DiscReader.new 3 1 20)
        ⟨[]⟩).2.2.calls = [] ++ [NativeCall.read_limited 20]) ∧
    (runN (fun _ => some []) (U32_MOD - 3 + 1) (DiscReader.new 3 1 20)
        ⟨[]⟩).2.1.current_lsn = 1 ∧
    (∀ t : NativeState,
      DiscReader.next_sector (fun _ => some [])
          (runN (fun _ => some []) (U32_MOD - 3 + 1) (DiscReader.new 3 1 20)
            ⟨[]⟩).2.1 t =
        (none,
         (runN (fun _ => some []) (U32_MOD - 3 + 1) (DiscReader.new 3 1 20)
           ⟨[]⟩).2.1, t)) :=
  claim_C10 3 1 20 (fun _ => some []) ⟨[]⟩ (by decide) (by decide)
    (fun _ => rfl)

/-- Number of successful steps remaining before the wrapping `u32` cursor
`c` reaches the configured last sector `l`. -/
def lsn_dist (c l : Nat) : Nat :=
  if c ≤ l then l - c else U32_MOD - c + l

lemma lsn_dist_eq_zero (c l : Nat) (hc : c < U32_MOD) :
    lsn_dist c l = 0 ↔ c = l := by
  simp only [lsn_dist, U32_MOD] at *
  split <;> omega

lemma lsn_dist_step (c l : Nat) (hc : c < U32_MOD) (hl : l < U32_MOD)
    (hne : c ≠ l) :
    lsn_dist ((c + 1) % U32_MOD) l = lsn_dist c l - 1 := by
  have hmod : (c + 1) % U32_MOD = if c + 1 < U32_MOD then c + 1 else 0 := by
    simp only [U32_MOD] at *
    split <;> omega
  simp only [lsn_dist, U32_MOD] at *
  split at hmod <;> rw [hmod] <;> split <;> split <;> omega

/-- Bisimulation: two readers that share the retry budget and are the same
number of steps away from exhaustion behave identically — given the same
native responses they produce the same sequence of step results and issue
the same native calls, regardless of their absolute cursor positions. -/
lemma runN_bisim (resp : Nat → Option Frame) :
    ∀ (n c1 l1 c2 l2 : Nat) (m : Int) (s : NativeState),
      c1 < U32_MOD → l1 < U32_MOD → c2 < U32_MOD → l2 < U32_MOD →
      lsn_dist c1 l1 = lsn_dist c2 l2 →
      (runN resp n ⟨l1, c1, m⟩ s).1 = (runN resp n ⟨l2, c2, m⟩ s).1 ∧
      (runN resp n ⟨l1, c1, m⟩ s).2.2 = (runN resp n ⟨l2, c2, m⟩ s).2.2 := by
  intro n
  induction n with
  | zero => intro c1 l1 c2 l2 m s _ _ _ _ _; exact ⟨rfl, rfl⟩
  | succ n ih =>
      intro c1 l1 c2 l2 m s hc1 hl1 hc2 hl2 hd
      by_cases h0 : lsn_dist c1 l1 = 0
      · have he1 : c1 = l1 := (lsn_dist_eq_zero c1 l1 hc1).mp h0
        have he2 : c2 = l2 := (lsn_dist_eq_zero c2 l2 hc2).mp (hd ▸ h0)
        have hs1 : DiscReader.next_sector resp ⟨l1, c1, m⟩ s =
            (none, ⟨l1, c1, m⟩, s) := next_sector_exhausted resp _ s he1
        have hs2 : DiscReader.next_sector resp ⟨l2, c2, m⟩ s =
            (none, ⟨l2, c2, m⟩, s) := next_sector_exhausted resp _ s he2
        obtain ⟨hres, hst⟩ := ih c1 l1 c2 l2 m s hc1 hl1 hc2 hl2 hd
        constructor
        · simp only [runN, hs1, hs2, hres]
        · simp only [runN, hs1, hs2, hst]
      · have hne1 : c1 ≠ l1 := fun h =>
          h0 ((lsn_dist_eq_zero c1 l1 hc1).mpr h)
        have hne2 : c2 ≠ l2 := fun h =>
          h0 (hd ▸ (lsn_dist_eq_zero c2 l2 hc2).mpr h)
        cases hr : resp s.calls.length with
        | none =>
            have hs1 : DiscReader.next_sector resp ⟨l1, c1, m⟩ s =
                (some (Except.error Error.Read), ⟨l1, c1, m⟩,
                 ⟨s.calls ++ [NativeCall.read_limited m]⟩) := by
              simp [DiscReader.next_sector, hne1, hr]
            have hs2 : DiscReader.next_sector resp ⟨l2, c2, m⟩ s =
                (some (Except.error Error.Read), ⟨l2, c2, m⟩,
                 ⟨s.calls ++ [NativeCall.read_limited m]⟩) := by
              simp [DiscReader.next_sector, hne2, hr]
            obtain ⟨hres, hst⟩ :=
              ih c1 l1 c2 l2 m ⟨s.calls ++ [NativeCall.read_limited m]⟩
                hc1 hl1 hc2 hl2 hd
            constructor
            · simp only [runN, hs1, hs2, hres]
            · simp only [runN, hs1, hs2, hst]
        | some f =>
            have hs1 : DiscReader.next_sector resp ⟨l1, c1, m⟩ s =
                (some (Except.ok f), ⟨l1, (c1 + 1) % U32_MOD, m⟩,
                 ⟨s.calls ++ [NativeCall.read_limited m]⟩) := by
              simp [DiscReader.next_sector, hne1, hr]
            have hs2 : DiscReader.next_sector resp ⟨l2, c2, m⟩ s =
                (some (Except.ok f), ⟨l2, (c2 + 1) % U32_MOD, m⟩,
                 ⟨s.calls ++ [NativeCall.read_limited m]⟩) := by
              simp [DiscReader.next_sector, hne2, hr]
            have hd' : lsn_dist ((c1 + 1) % U32_MOD) l1 =
                lsn_dist ((c2 + 1) % U32_MOD) l2 := by
              rw [lsn_dist_step c1 l1 hc1 hl1 hne1,
                lsn_dist_step c2 l2 hc2 hl2 hne2, hd]
            obtain ⟨hres, hst⟩ :=
              ih ((c1 + 1) % U32_MOD) l1 ((c2 + 1) % U32_MOD) l2 m
                ⟨s.calls ++ [NativeCall.read_limited m]⟩
                (Nat.mod_lt _ (by simp [U32_MOD])) hl1
                (Nat.mod_lt _ (by simp [U32_MOD])) hl2 hd'
            constructor
            · simp only [runN, hs1, hs2, hres]
            · simp only [runN, hs1, hs2, hst]

/-- C9: the native read call carries no sector-position argument and no
seek is issued, so two `DiscReader`s over ranges `[A1, B1)` and `[A2, B2)`
of equal length (same retry budget, same native responses) issue identical
sequences of native calls and yield identical step results for any number
of steps: the start sector only fixes the number of steps, never which
sectors the native layer reads. -/
theorem claim_C9 (A1 B1 A2 B2 : Nat) (m : Int) (resp : Nat → Option Frame)
    (s : NativeState) (n : Nat) (h1 : A1 ≤ B1) (h2 : A2 ≤ B2)
    (hB1 : B1 < U32_MOD) (hB2 : B2 < U32_MOD)
    (hlen : B1 - A1 = B2 - A2) :
    (runN resp n (DiscReader.new A1 B1 m) s).1 =
      (runN resp n (DiscReader.new A2 B2 m) s).1 ∧
    (runN resp n (DiscReader.new A1 B1 m) s).2.2 =
      (runN resp n (DiscReader.new A2 B2 m) s).2.2 := by
  have hd : lsn_dist A1 B1 = lsn_dist A2 B2 := by
    simp only [lsn_dist, if_pos h1, if_pos h2, hlen]
  exact runN_bisim resp n A1 B1 A2 B2 m s
    (lt_of_le_of_lt h1 hB1) hB1 (lt_of_le_of_lt h2 hB2) hB2 hd

/-- Closed instance of C9: the ranges `[0, 2)` and `[5, 7)` behave
identically for 4 steps. -/
theorem claim_C9_witness :
    (runN (fun _ => some []) 4 (DiscReader.new 0 2 20) ⟨[]⟩).1 =
      (runN (fun _ => some []) 4 (DiscReader.new 5 7 20) ⟨[]⟩).1 ∧
    (runN (fun _ => some []) 4 (DiscReader.new 0 2 20) ⟨[]⟩).2.2 =
      (runN (fun _ => some []) 4 (DiscReader.new 5 7 20) ⟨[]⟩).2.2 :=
  claim_C9 0 2 5 7 20 (fun _ => some []) ⟨[]⟩ 4 (by decide) (by decide)
    (by decide) (by decide) (by decide)

/-- `Drive::track_first_sector` (src/lib.rs lines 139-147) as a function of
the native `cdda_track_firstsector` return code: `check_result` then
`as u32` on the non-negative success value. -/
def Drive.track_first_sector (n : Int) : Except Error Nat :=
  match ParanoiaError.check_result n with
  | Except.error e => Except.error (Error.Paranoia e)
  | Except.ok v => Except.ok v.toNat

/-- `Drive::track_last_sector` (src/lib.rs lines 150-158): identical shape
to `track_first_sector` over `cdda_track_lastsector`. -/
def Drive.track_last_sector (n : Int) : Except Error Nat :=
  match ParanoiaError.check_result n with
  | Except.error e => Except.error (Error.Paranoia e)
  | Except.ok v => Except.ok v.toNat

/-- `Drive::tracks` (src/lib.rs lines 161-169): the native `cdda_tracks`
return value is handed back unchanged — no `check_result`, no error
channel. -/
def Drive.tracks (n : Int) : Int := n

/-- `Drive::sector_track` (src/lib.rs lines 173-191): `check_result`, then
the libcdio-specific comparison of the success value against
`CDIO_INVALID_TRACK` (a constant from the generated bindings, passed in
here as `invalid_track`). -/
def Drive.sector_track (invalid_track : Nat) (n : Int) : Except Error Nat :=
  match ParanoiaError.check_result n with
  | Except.error e => Except.error (Error.Paranoia e)
  | Except.ok v =>
      if v.toNat = invalid_track then
        Except.error (Error.Paranoia ParanoiaError.InvalidTrackNumber)
      else
        Except.ok v.toNat

/-- `Drive::track_channels` (src/lib.rs lines 196-206): the native value is
converted with `try_into::<u8>().ok()` — values outside `0..=255` (hence
every negative failure code) become `None`; no error mapping is applied. -/
def Drive.track_channels (n : Int) : Option Nat :=
  if 0 ≤ n ∧ n ≤ 255 then some n.toNat else none

/-- `Drive::track_audio` (src/lib.rs lines 208-216): the native value is
compared against 1; any failure code becomes `false`. -/
def Drive.track_audio (n : Int) : Bool := n == 1

/-- `Drive::track_copy_permitted` (src/lib.rs lines 218-227): the native
value is compared against 1; any failure code becomes `false`. -/
def Drive.track_copy_permitted (n : Int) : Bool := n == 1

/-- `Drive::track_linear_preemphasis` (src/lib.rs lines 231-240): the
native value is compared against 1; any failure code becomes `false`. -/
def Drive.track_linear_preemphasis (n : Int) : Bool := n == 1

/-- `Drive::disc_first_sector` (src/lib.rs lines 242-250): `check_result`
then `as u32`, like the track boundary accessors. -/
def Drive.disc_first_sector (n : Int) : Except Error Nat :=
  match ParanoiaError.check_result n with
  | Except.error e => Except.error (Error.Paranoia e)
  | Except.ok v => Except.ok v.toNat

/-- `Drive::disc_last_sector` (src/lib.rs lines 252-260): `check_result`
then `as u32`. -/
def Drive.disc_last_sector (n : Int) : Except Error Nat :=
  match ParanoiaError.check_result n with
  | Except.error e => Except.error (Error.Paranoia e)
  | Except.ok v => Except.ok v.toNat

instance : DecidableEq (Except Error Nat) := fun a b =>
  match a, b with
  | Except.ok x, Except.ok y =>
      if h : x = y then isTrue (by rw [h]) else
        isFalse (by intro hc; cases hc; exact h rfl)
  | Except.error x, Except.error y =>
      if h : x = y then isTrue (by rw [h]) else
        isFalse (by intro hc; cases hc; exact h rfl)
  | Except.ok _, Except.error _ => isFalse (by intro hc; cases hc)
  | Except.error _, Except.ok _ => isFalse (by intro hc; cases hc)

/-- The accessor queries exposed on an open `Drive` handle. -/
inductive Accessor where
  | tracks
  | track_first_sector
  | track_last_sector
  | sector_track
  | track_channels
  | track_audio
  | track_copy_permitted
  | track_linear_preemphasis
  | disc_first_sector
  | disc_last_sector
deriving DecidableEq, Repr

/-- What an accessor hands to the caller: a typed fallible result, a plain
integer with no error channel, an optional value, or a boolean flag. -/
inductive AccessorOutcome where
  | result (r : Except Error Nat)
  | plainInt (v : Int)
  | optional (v : Option Nat)
  | flag (b : Bool)
deriving DecidableEq, Repr

/-- Dispatch an accessor on the raw native return code, per src/lib.rs. -/
def accessor_outcome (invalid_track : Nat) :
    Accessor → Int → AccessorOutcome
  | Accessor.tracks, n => AccessorOutcome.plainInt (Drive.tracks n)
  | Accessor.track_first_sector, n =>
      AccessorOutcome.result (Drive.track_first_sector n)
  | Accessor.track_last_sector, n =>
      AccessorOutcome.result (Drive.track_last_sector n)
  | Accessor.sector_track, n =>
      AccessorOutcome.result (Drive.sector_track invalid_track n)
  | Accessor.track_channels, n =>
      AccessorOutcome.optional (Drive.track_channels n)
  | Accessor.track_audio, n => AccessorOutcome.flag (Drive.track_audio n)
  | Accessor.track_copy_permitted, n =>
      AccessorOutcome.flag (Drive.track_copy_permitted n)
  | Accessor.track_linear_preemphasis, n =>
      AccessorOutcome.flag (Drive.track_linear_preemphasis n)
  | Accessor.disc_first_sector, n =>
      AccessorOutcome.result (Drive.disc_first_sector n)
  | Accessor.disc_last_sector, n =>
      AccessorOutcome.result (Drive.disc_last_sector n)

/-- Whether an accessor outcome is a typed error surfaced to the caller. -/
def AccessorOutcome.isTypedError : AccessorOutcome → Bool
  | AccessorOutcome.result (Except.error _) => true
  | _ => false

/-- Counterexample to C5: not every accessor propagates a negative native
failure code through the error mapping. On native code -102 (the
documented permission-denied code), `track_copy_permitted` returns the
plain flag `false`, and `tracks` on -1 returns the plain unmapped value
-1; neither surfaces a typed error. -/
theorem claim_C5_counterexample :
    accessor_outcome 255 Accessor.track_copy_permitted (-102) =
      AccessorOutcome.flag false ∧
    (accessor_outcome 255 Accessor.track_copy_permitted
        (-102)).isTypedError = false ∧
    accessor_outcome 255 Accessor.tracks (-1) =
      AccessorOutcome.plainInt (-1) ∧
    (accessor_outcome 255 Accessor.tracks (-1)).isTypedError = false := by
  refine ⟨rfl, rfl, rfl, rfl⟩

/-- C5 (amended): on a negative native return code, the track-boundary,
sector-to-track and disc-boundary accessors propagate the code through the
error mapping as a typed error; but `tracks` returns the native value
unmapped, `track_channels` collapses the code to `none`, and the
audio/copy/pre-emphasis flag accessors collapse it to `false` — those four
discard the failure code. -/
theorem claim_C5 (invalid_track : Nat) (n : Int) (hn : n < 0) :
    accessor_outcome invalid_track Accessor.track_first_sector n =
      AccessorOutcome.result (Except.error (Error.Paranoia
        (ParanoiaError.from_primitive ((-n).toNat % 65536)))) ∧
    accessor_outcome invalid_track Accessor.track_last_sector n =
      AccessorOutcome.result (Except.error (Error.Paranoia
        (ParanoiaError.from_primitive ((-n).toNat % 65536)))) ∧
    accessor_outcome invalid_track Accessor.sector_track n =
      AccessorOutcome.result (Except.error (Error.Paranoia
        (ParanoiaError.from_primitive ((-n).toNat % 65536)))) ∧
    accessor_outcome invalid_track Accessor.disc_first_sector n =
      AccessorOutcome.result (Except.error (Error.Paranoia
        (ParanoiaError.from_primitive ((-n).toNat % 65536)))) ∧
    accessor_outcome invalid_track Accessor.disc_last_sector n =
      AccessorOutcome.result (Except.error (Error.Paranoia
        (ParanoiaError.from_primitive ((-n).toNat % 65536)))) ∧
    accessor_outcome invalid_track Accessor.tracks n =
      AccessorOutcome.plainInt n ∧
    accessor_outcome invalid_track Accessor.track_channels n =
      AccessorOutcome.optional none ∧
    accessor_outcome invalid_track Accessor.track_audio n =
      AccessorOutcome.flag false ∧
    accessor_outcome invalid_track Accessor.track_copy_permitted n =
      AccessorOutcome.flag false ∧
    accessor_outcome invalid_track Accessor.track_linear_preemphasis n =
      AccessorOutcome.flag false := by
  have hne : n ≠ 1 := by omega
  have hle : ¬ 0 ≤ n := by omega
  refine ⟨?_, ?_, ?_, ?_, ?_, rfl, ?_, ?_, ?_, ?_⟩ <;>
    simp [accessor_outcome, Drive.track_first_sector,
      Drive.track_last_sector, Drive.sector_track, Drive.disc_first_sector,
      Drive.disc_last_sector, Drive.track_channels, Drive.track_audio,
      Drive.track_copy_permitted, Drive.track_linear_preemphasis,
      ParanoiaError.check_result, hn, hne, hle]

/-- Closed instance of the amended C5 at native code -404. -/
theorem claim_C5_witness :
    accessor_outcome 255 Accessor.track_first_sector (-404) =
      AccessorOutcome.result (Except.error (Error.Paranoia
        (ParanoiaError.from_primitive (((404 : Int)).toNat % 65536)))) ∧
    accessor_outcome 255 Accessor.track_last_sector (-404) =
      AccessorOutcome.result (Except.error (Error.Paranoia
        (ParanoiaError.from_primitive (((404 : Int)).toNat % 65536)))) ∧
    accessor_outcome 255 Accessor.sector_track (-404) =
      AccessorOutcome.result (Except.error (Error.Paranoia
        (ParanoiaError.from_primitive (((404 : Int)).toNat % 65536)))) ∧
    accessor_outcome 255 Accessor.disc_first_sector (-404) =
      AccessorOutcome.result (Except.error (Error.Paranoia
        (ParanoiaError.from_primitive (((404 : Int)).toNat % 65536)))) ∧
    accessor_outcome 255 Accessor.disc_last_sector (-404) =
      AccessorOutcome.result (Except.error (Error.Paranoia
        (ParanoiaError.from_primitive (((404 : Int)).toNat % 65536)))) ∧
    accessor_outcome 255 Accessor.tracks (-404) =
      AccessorOutcome.plainInt (-404) ∧
    accessor_outcome 255 Accessor.track_channels (-404) =
      AccessorOutcome.optional none ∧
    accessor_outcome 255 Accessor.track_audio (-404) =
      AccessorOutcome.flag false ∧
    accessor_outcome 255 Accessor.track_copy_permitted (-404) =
      AccessorOutcome.flag false ∧
    accessor_outcome 255 Accessor.track_linear_preemphasis (-404) =
      AccessorOutcome.flag false :=
  claim_C5 255 (-404) (by decide)

/-- The drive handle as `Paranoia::read_track_limited` sees it: the
results of `Drive::track_first_sector` and `Drive::track_last_sector` per
track number. -/
structure DriveModel where
  track_first : Nat → Except Error Nat
  track_last : Nat → Except Error Nat

/-- `Paranoia::read_track_limited` (src/read.rs lines 36-45): resolve the
track's first and last logical sector via the drive handle (propagating
either error with `?`) and construct the reader over that range with the
given retry budget. -/
def Paranoia.read_track_limited (d : DriveModel) (track : Nat)
    (max_retries : Int) : Except Error DiscReader := do
  let first_lsn ← d.track_first track
  let last_lsn ← d.track_last track
  pure (DiscReader.new first_lsn last_lsn max_retries)

/-- `Paranoia::read_track` (src/read.rs lines 32-34): retry budget 20. -/
def Paranoia.read_track (d : DriveModel) (track : Nat) :
    Except Error DiscReader :=
  Paranoia.read_track_limited d track 20

/-- `Paranoia::read_sectors_limited` (src/read.rs lines 55-62). -/
def Paranoia.read_sectors_limited (first_lsn last_lsn : Nat)
    (max_retries : Int) : DiscReader :=
  DiscReader.new first_lsn last_lsn max_retries

/-- `Paranoia::read_sectors` (src/read.rs lines 47-53): retry budget 20. -/
def Paranoia.read_sectors (first_lsn last_lsn : Nat) : DiscReader :=
  Paranoia.read_sectors_limited first_lsn last_lsn 20

/-- C6: `read_track` is `read_track_limited` with retry budget 20 and
`read_sectors` is `read_sectors_limited` with retry budget 20;
`read_track_limited` resolves the track to its first and last logical
sector through the drive handle, propagates any boundary-resolution error,
and otherwise delegates to the range-based reader over `[first, last)`
with the given budget. -/
theorem claim_C6 :
    (∀ (d : DriveModel) (t : Nat),
      Paranoia.read_track d t = Paranoia.read_track_limited d t 20) ∧
    (∀ a b : Nat,
      Paranoia.read_sectors a b = Paranoia.read_sectors_limited a b 20) ∧
    (∀ (d : DriveModel) (t : Nat) (m : Int) (e : Error),
      d.track_first t = Except.error e →
      Paranoia.read_track_limited d t m = Except.error e) ∧
    (∀ (d : DriveModel) (t : Nat) (m : Int) (f : Nat) (e : Error),
      d.track_first t = Except.ok f → d.track_last t = Except.error e →
      Paranoia.read_track_limited d t m = Except.error e) ∧
    (∀ (d : DriveModel) (t : Nat) (m : Int) (f l : Nat),
      d.track_first t = Except.ok f → d.track_last t = Except.ok l →
      Paranoia.read_track_limited d t m =
        Except.ok (Paranoia.read_sectors_limited f l m)) := by
  refine ⟨fun _ _ => rfl, fun _ _ => rfl, ?_, ?_, ?_⟩
  · intro d t m e hf
    simp only [Paranoia.read_track_limited, hf]
    rfl
  · intro d t m f e hf hl
    simp only [Paranoia.read_track_limited, hf, hl]
    rfl
  · intro d t m f l hf hl
    simp only [Paranoia.read_track_limited, Paranoia.read_sectors_limited,
      hf, hl]
    rfl

/-- Closed instance of C6 on a two-outcome drive model: track 1 resolves
to `[10, 50)`, track 2 fails with an invalid-track error. -/
theorem claim_C6_witness :
    Paranoia.read_track_limited
        ⟨fun t => if t = 1 then Except.ok 10
                  else Except.error (Error.Paranoia
                    ParanoiaError.InvalidTrackNumber),
         fun _ => Except.ok 50⟩ 1 20 =
      Except.ok (Paranoia.read_sectors_limited 10 50 20) ∧
    Paranoia.read_track_limited
        ⟨fun t => if t = 1 then Except.ok 10
                  else Except.error (Error.Paranoia
                    ParanoiaError.InvalidTrackNumber),
         fun _ => Except.ok 50⟩ 2 20 =
      Except.error (Error.Paranoia ParanoiaError.InvalidTrackNumber) :=
  ⟨claim_C6.2.2.2.2
      ⟨fun t => if t = 1 then Except.ok 10
                else Except.error (Error.Paranoia
                  ParanoiaError.InvalidTrackNumber),
       fun _ => Except.ok 50⟩ 1 20 10 50 rfl rfl,
   claim_C6.2.2.1
      ⟨fun t => if t = 1 then Except.ok 10
                else Except.error (Error.Paranoia
                  ParanoiaError.InvalidTrackNumber),
       fun _ => Except.ok 50⟩ 2 20
      (Error.Paranoia ParanoiaError.InvalidTrackNumber) rfl⟩

/-- `CString::new` on a byte string: fails with `NulError` exactly when
the bytes contain an embedded null byte. -/
def cstring_new (bytes : List Nat) : Option (List Nat) :=
  if bytes.contains 0 then none else some bytes

/-- The native layer's answers during drive discovery: whether
`cdda_find_a_cdrom` / `cdda_identify` yields a handle (`none` models a
null pointer), and the return code of the subsequent `cdda_open`. -/
structure DriveOracle where
  handle : Option Unit
  open_code : Int

/-- `Drive::find` (src/lib.rs lines 95-109), returning the result together
with the trace of native calls issued, including the `cdda_close` that the
`Drop` impl (src/lib.rs lines 86-91) runs when the locally-owned `Drive`
is dropped on the error path of `cdda_open`. `check_messages` is a no-op
without the `tracing` feature and appears in no trace. -/
def Drive.find (o : DriveOracle) : Except Error Unit × List NativeCall :=
  match o.handle with
  | none => (Except.error Error.CantOpenDrive, [NativeCall.find_a_cdrom])
  | some _ =>
      match ParanoiaError.check_result o.open_code with
      | Except.error e =>
          (Except.error (Error.Paranoia e),
           [NativeCall.find_a_cdrom, NativeCall.cdda_open,
            NativeCall.cdda_close])
      | Except.ok _ =>
          (Except.ok (), [NativeCall.find_a_cdrom, NativeCall.cdda_open])

/-- `Drive::open` (src/lib.rs lines 111-127): convert the path with
`CString::new` first (an embedded null byte raises `InvalidString` before
any native call), then `cdda_identify`, then `cdda_open`, with the same
drop-on-error behaviour as `Drive::find`. -/
def Drive.open (path : List Nat) (o : DriveOracle) :
    Except Error Unit × List NativeCall :=
  match cstring_new path with
  | none => (Except.error Error.InvalidString, [])
  | some cs =>
      match o.handle with
      | none => (Except.error Error.CantOpenDrive, [NativeCall.identify cs])
      | some _ =>
          match ParanoiaError.check_result o.open_code with
          | Except.error e =>
              (Except.error (Error.Paranoia e),
               [NativeCall.identify cs, NativeCall.cdda_open,
                NativeCall.cdda_close])
          | Except.ok _ =>
              (Except.ok (),
               [NativeCall.identify cs, NativeCall.cdda_open])

/-- C7: opening a path whose bytes contain an embedded null byte fails
with the invalid-string error, and the native call trace is empty — no
identify or open call is ever attempted for such a path. -/
theorem claim_C7 (path : List Nat) (o : DriveOracle)
    (h : path.contains 0 = true) :
    Drive.open path o = (Except.error Error.InvalidString, []) := by
  have h' : (0 : Nat) ∈ path := by simpa using h
  simp [Drive.open, cstring_new, h']

/-- Closed instance of C7 on the byte string `[47, 0, 100]`. -/
theorem claim_C7_witness :
    Drive.open [47, 0, 100] ⟨some (), 0⟩ =
      (Except.error Error.InvalidString, []) :=
  claim_C7 [47, 0, 100] ⟨some (), 0⟩ (by decide)

/-- C8: for both `Drive::find` and `Drive::open` (on a null-free path), a
null handle from locating/identifying the drive yields the
cant-open-drive error with no further native calls; and a negative return
from the subsequent `cdda_open` yields the mapped typed error while the
already-located handle is closed exactly once — `cdda_close` appears
exactly once in the trace, as its final call. -/
theorem claim_C8 :
    (∀ o : DriveOracle, o.handle = none →
      Drive.find o = (Except.error Error.CantOpenDrive,
        [NativeCall.find_a_cdrom])) ∧
    (∀ (o : DriveOracle) (u : Unit), o.handle = some u → o.open_code < 0 →
      Drive.find o =
        (Except.error (Error.Paranoia (ParanoiaError.from_primitive
          ((-o.open_code).toNat % 65536))),
         [NativeCall.find_a_cdrom, NativeCall.cdda_open,
          NativeCall.cdda_close]) ∧
      ((Drive.find o).2.count NativeCall.cdda_close = 1) ∧
      ((Drive.find o).2.getLast? = some NativeCall.cdda_close)) ∧
    (∀ (path : List Nat) (o : DriveOracle), path.contains 0 = false →
      o.handle = none →
      Drive.open path o = (Except.error Error.CantOpenDrive,
        [NativeCall.identify path])) ∧
    (∀ (path : List Nat) (o : DriveOracle) (u : Unit),
      path.contains 0 = false → o.handle = some u → o.open_code < 0 →
      Drive.open path o =
        (Except.error (Error.Paranoia (ParanoiaError.from_primitive
          ((-o.open_code).toNat % 65536))),
         [NativeCall.identify path, NativeCall.cdda_open,
          NativeCall.cdda_close]) ∧
      ((Drive.open path o).2.count NativeCall.cdda_close = 1) ∧
      ((Drive.open path o).2.getLast? = some NativeCall.cdda_close)) := by
  refine ⟨?_, ?_, ?_, ?_⟩
  · intro o h
    simp [Drive.find, h]
  · intro o u hh hcode
    have hstep : Drive.find o =
        (Except.error (Error.Paranoia (ParanoiaError.from_primitive
          ((-o.open_code).toNat % 65536))),
         [NativeCall.find_a_cdrom, NativeCall.cdda_open,
          NativeCall.cdda_close]) := by
      simp [Drive.find, hh, ParanoiaError.check_result, hcode]
    refine ⟨hstep, ?_, ?_⟩ <;> rw [hstep] <;> rfl
  · intro path o hpath hh
    have hpath' : (0 : Nat) ∉ path := by simpa using hpath
    simp [Drive.open, cstring_new, hpath', hh]
  · intro path o u hpath hh hcode
    have hpath' : (0 : Nat) ∉ path := by simpa using hpath
    have hstep : Drive.open path o =
        (Except.error (Error.Paranoia (ParanoiaError.from_primitive
          ((-o.open_code).toNat % 65536))),
         [NativeCall.identify path, NativeCall.cdda_open,
          NativeCall.cdda_close]) := by
      simp [Drive.open, cstring_new, hpath', hh,
        ParanoiaError.check_result, hcode]
    refine ⟨hstep, ?_, ?_⟩ <;> rw [hstep]
    · simp [List.count_cons]
    · rfl

/-- Closed instance of C8: a failing `cdda_open` (code -6) after a
successful identify of path `[47, 100]`, and a null handle from
`cdda_find_a_cdrom`. -/
theorem claim_C8_witness :
    Drive.find ⟨none, 0⟩ =
      (Except.error Error.CantOpenDrive, [NativeCall.find_a_cdrom]) ∧
    (Drive.open [47, 100] ⟨some (), -6⟩ =
      (Except.error (Error.Paranoia (ParanoiaError.from_primitive
        ((-(-6 : Int)).toNat % 65536))),
       [NativeCall.identify [47, 100], NativeCall.cdda_open,
        NativeCall.cdda_close]) ∧
     ((Drive.open [47, 100] ⟨some (), -6⟩).2.count NativeCall.cdda_close
        = 1) ∧
     ((Drive.open [47, 100] ⟨some (), -6⟩).2.getLast? =
        some NativeCall.cdda_close)) :=
  ⟨claim_C8.1 ⟨none, 0⟩ rfl,
   claim_C8.2.2.2 [47, 100] ⟨some (), -6⟩ () (by decide) rfl (by decide)⟩

end Cdparanoia
